import Mathlib

/-!
Shallow embedding of the camera-device session controller in
src/camera/libcameraservice/CameraHardware.cpp (android namespace,
class CameraHardware).

Modelling conventions:
- The mutable object state (class members) is a Lean structure
  CameraHardware; each member function becomes a pure function from the
  pre-state to (status, post-state, event trace) as appropriate.
- Device I/O calls (V4L2Camera Open/Init/StartStreaming/GrabPreviewFrame/
  GrabJpegFrame/Uninit/StopStreaming/Close), the thread join
  (requestExitAndWait) and every callback invocation are recorded as
  events in an emitted trace, in source order.
- Callback slots (mNotifyFn, mDataFn, mTimestampFn) are modelled by a
  Bool: whether a non-null function pointer is registered.  Invoking a
  slot that is null (a NULL function-pointer call in the C++) is
  recorded as the event Event.fault.
- Heap and thread handles (sp pointers) are modelled by a Bool: whether
  the pointer is non-null.
- status_t return values keep the distinct constants the source uses:
  NO_ERROR, UNKNOWN_ERROR, INVALID_OPERATION, BAD_VALUE and the literal
  -1 returned by setParameters.
- The C++ constructor leaves mMsgEnabled uninitialized and the
  CameraParameters default constructor is external glue, so the
  constructor model takes both as explicit (arbitrary) arguments.
-/

namespace CameraHAL

/-- Android CAMERA_MSG_* bitmask constants (frameworks/base camera headers
of this era). -/
def CAMERA_MSG_ERROR : Nat := 1

def CAMERA_MSG_SHUTTER : Nat := 2

def CAMERA_MSG_FOCUS : Nat := 4

def CAMERA_MSG_ZOOM : Nat := 8

def CAMERA_MSG_PREVIEW_FRAME : Nat := 16

def CAMERA_MSG_VIDEO_FRAME : Nat := 32

def CAMERA_MSG_POSTVIEW_FRAME : Nat := 64

def CAMERA_MSG_RAW_IMAGE : Nat := 128

def CAMERA_MSG_COMPRESSED_IMAGE : Nat := 256

/-- Android status_t values the source returns.  minusOne is the literal
-1 returned by setParameters on a format mismatch. -/
inductive status_t where
  | noError
  | unknownError
  | invalidOperation
  | badValue
  | minusOne
  deriving DecidableEq, Repr

/-- Observable events emitted by the controller: device-channel calls,
the preview-thread join, callback invocations, and a fault marker for a
call through a NULL callback function pointer. -/
inductive Event where
  | devOpen
  | devInit
  | devStartStreaming
  | devGrabPreview
  | devGrabJpeg
  | devUninit
  | devStopStreaming
  | devClose
  | joinPreviewThread
  | notifyCall (msgType : Nat) (ext1 ext2 : Int)
  | dataCall (msgType : Nat)
  | fault
  deriving DecidableEq, Repr

/-- Events that are callback dispatches (a notify or data callback
actually invoked). -/
def isDispatch : Event → Bool
  | Event.notifyCall _ _ _ => true
  | Event.dataCall _ => true
  | _ => false

/-- Events that touch a callback slot at all: genuine dispatches plus
faulting calls through a null slot. -/
def isCallbackEvent : Event → Bool
  | Event.notifyCall _ _ _ => true
  | Event.dataCall _ => true
  | Event.fault => true
  | _ => false

/-- A preview-frame data dispatch. -/
def isPreviewFrameDispatch : Event → Bool
  | Event.dataCall m => m == CAMERA_MSG_PREVIEW_FRAME
  | _ => false

/-- The CameraParameters fields the source reads and writes: preview
size, preview frame rate, preview format, picture size, picture
format. -/
structure CameraParameters where
  previewWidth : Nat
  previewHeight : Nat
  previewFrameRate : Nat
  previewFormat : String
  pictureWidth : Nat
  pictureHeight : Nat
  pictureFormat : String
  deriving DecidableEq, Repr

/-- The member state of class CameraHardware.  Heap, buffer and thread
handles are Bools (pointer non-null); callback slots are Bools
(registered, i.e. non-NULL). -/
structure CameraHardware where
  mParameters : CameraParameters
  mHeap : Bool
  mBuffer : Bool
  mPreviewFrameSize : Nat
  previewStopped : Bool
  mMsgEnabled : Nat
  mNotifyFn : Bool
  mDataFn : Bool
  mTimestampFn : Bool
  mPreviewThread : Bool
  deriving DecidableEq, Repr

/-- CameraHardware::setCallbacks: replaces the three slots and the user
token under the lock. -/
def CameraHardware.setCallbacks (s : CameraHardware)
    (notifyCb dataCb timestampCb : Bool) : CameraHardware :=
  { s with mNotifyFn := notifyCb, mDataFn := dataCb, mTimestampFn := timestampCb }

/-- CameraHardware::enableMsgType: mMsgEnabled |= msgType. -/
def CameraHardware.enableMsgType (s : CameraHardware) (msgType : Nat) : CameraHardware :=
  { s with mMsgEnabled := s.mMsgEnabled ||| msgType }

/-- CameraHardware::disableMsgType: mMsgEnabled &= ~msgType, on 32-bit
masks. -/
def CameraHardware.disableMsgType (s : CameraHardware) (msgType : Nat) : CameraHardware :=
  { s with mMsgEnabled := s.mMsgEnabled &&& (msgType ^^^ (2 ^ 32 - 1)) }

/-- CameraHardware::msgTypeEnabled: nonzero test of mMsgEnabled & msgType. -/
def CameraHardware.msgTypeEnabled (s : CameraHardware) (msgType : Nat) : Bool :=
  s.mMsgEnabled &&& msgType != 0

/-- CameraHardware::previewThread: one iteration of the preview loop.
If the stopped flag is clear it grabs a frame into the heap and, when
CAMERA_MSG_PREVIEW_FRAME is enabled, calls mDataFn with no null check
(a null mDataFn is a faulting call). -/
def CameraHardware.previewThread (s : CameraHardware) : List Event :=
  if s.previewStopped then []
  else
    Event.devGrabPreview ::
      (if s.mMsgEnabled &&& CAMERA_MSG_PREVIEW_FRAME ≠ 0 then
        (if s.mDataFn then [Event.dataCall CAMERA_MSG_PREVIEW_FRAME]
         else [Event.fault])
      else [])

/-- CameraHardware::startPreview: fails with INVALID_OPERATION if a
preview thread already exists; otherwise opens the device at the fixed
640x480 geometry, allocates the heap and buffer for 640*480*2 bytes,
inits and starts streaming, clears the stopped flag and spawns the
preview thread. -/
def CameraHardware.startPreview (s : CameraHardware) :
    status_t × CameraHardware × List Event :=
  if s.mPreviewThread then (status_t.invalidOperation, s, [])
  else
    (status_t.noError,
     { s with
        mHeap := true
        mBuffer := true
        mPreviewFrameSize := 640 * 480 * 2
        previewStopped := false
        mPreviewThread := true },
     [Event.devOpen, Event.devInit, Event.devStartStreaming])

/-- CameraHardware::stopPreview: sets the stopped flag under the lock,
then, if the preview thread handle is non-null, tears down the device
(Uninit, StopStreaming, Close) and joins the thread
(requestExitAndWait) before clearing the handle. -/
def CameraHardware.stopPreview (s : CameraHardware) : CameraHardware × List Event :=
  let s1 := { s with previewStopped := true }
  if s1.mPreviewThread then
    ({ s1 with mPreviewThread := false },
     [Event.devUninit, Event.devStopStreaming, Event.devClose,
      Event.joinPreviewThread])
  else
    ({ s1 with mPreviewThread := false }, [])

/-- CameraHardware::previewEnabled: whether the preview thread handle is
non-null. -/
def CameraHardware.previewEnabled (s : CameraHardware) : Bool :=
  s.mPreviewThread

/-- CameraHardware::startRecording: permanently returns UNKNOWN_ERROR. -/
def CameraHardware.startRecording (_s : CameraHardware) : status_t :=
  status_t.unknownError

/-- CameraHardware::recordingEnabled: always false. -/
def CameraHardware.recordingEnabled (_s : CameraHardware) : Bool :=
  false

/-- CameraHardware::autoFocusThread: the body of the one-shot focus
task; notifies focus success (ext1 = true = 1) when CAMERA_MSG_FOCUS is
enabled, with no null check on mNotifyFn. -/
def CameraHardware.autoFocusThread (s : CameraHardware) : List Event :=
  if s.mMsgEnabled &&& CAMERA_MSG_FOCUS ≠ 0 then
    (if s.mNotifyFn then [Event.notifyCall CAMERA_MSG_FOCUS 1 0]
     else [Event.fault])
  else []

/-- CameraHardware::autoFocus: spawns the focus thread; returns
UNKNOWN_ERROR only when createThread (an external primitive, its
success passed here as an argument) fails, else NO_ERROR. -/
def CameraHardware.autoFocus (_s : CameraHardware) (threadCreated : Bool) : status_t :=
  if threadCreated then status_t.noError else status_t.unknownError

/-- CameraHardware::cancelAutoFocus: unconditional NO_ERROR. -/
def CameraHardware.cancelAutoFocus (_s : CameraHardware) : status_t :=
  status_t.noError

/-- CameraHardware::pictureThread: notifies the shutter (if enabled,
with no null check), reopens the device at the fixed geometry, inits
and starts streaming, grabs and dispatches one JPEG frame (if
CAMERA_MSG_COMPRESSED_IMAGE is enabled, again with no null check on
mDataFn), then tears the device down.  Always returns NO_ERROR and
mutates no member state. -/
def CameraHardware.pictureThread (s : CameraHardware) : status_t × List Event :=
  (status_t.noError,
    (if s.mMsgEnabled &&& CAMERA_MSG_SHUTTER ≠ 0 then
       (if s.mNotifyFn then [Event.notifyCall CAMERA_MSG_SHUTTER 0 0]
        else [Event.fault])
     else [])
    ++ [Event.devOpen, Event.devInit, Event.devStartStreaming]
    ++ (if s.mMsgEnabled &&& CAMERA_MSG_COMPRESSED_IMAGE ≠ 0 then
          Event.devGrabJpeg ::
            (if s.mDataFn then [Event.dataCall CAMERA_MSG_COMPRESSED_IMAGE]
             else [Event.fault])
        else [])
    ++ [Event.devUninit, Event.devStopStreaming, Event.devClose])

/-- CameraHardware::takePicture: a full stopPreview, then the capture
sequence run synchronously (the thread-spawn path is commented out in
the source); always returns NO_ERROR. -/
def CameraHardware.takePicture (s : CameraHardware) :
    status_t × CameraHardware × List Event :=
  let stopped := s.stopPreview
  let pic := stopped.1.pictureThread
  (status_t.noError, stopped.1, stopped.2 ++ pic.2)

/-- CameraHardware::cancelPicture: unconditional NO_ERROR. -/
def CameraHardware.cancelPicture (_s : CameraHardware) : status_t :=
  status_t.noError

/-- CameraHardware::setParameters: rejects (returning -1, leaving all
state untouched) any preview format other than exactly "yuv422sp" or
any picture format other than exactly "jpeg"; on success stores the
requested parameters and then overwrites the preview size back to the
fixed 640x480. -/
def CameraHardware.setParameters (s : CameraHardware) (params : CameraParameters) :
    status_t × CameraHardware :=
  if params.previewFormat ≠ "yuv422sp" then (status_t.minusOne, s)
  else if params.pictureFormat ≠ "jpeg" then (status_t.minusOne, s)
  else
    (status_t.noError,
     { s with mParameters :=
        { params with previewWidth := 640, previewHeight := 480 } })

/-- CameraHardware::sendCommand: unconditional BAD_VALUE. -/
def CameraHardware.sendCommand (_s : CameraHardware) (_command _arg1 _arg2 : Int) :
    status_t :=
  status_t.badValue

/-- CameraHardware::getParameters: a copy of mParameters. -/
def CameraHardware.getParameters (s : CameraHardware) : CameraParameters :=
  s.mParameters

/-- The parameter set initDefaultParameters builds: 640x480 preview and
picture sizes, 15 fps, "yuv422sp" preview and "jpeg" picture formats. -/
def defaultRequestedParameters : CameraParameters :=
  { previewWidth := 640
    previewHeight := 480
    previewFrameRate := 15
    previewFormat := "yuv422sp"
    pictureWidth := 640
    pictureHeight := 480
    pictureFormat := "jpeg" }

/-- CameraHardware::initDefaultParameters: builds the default parameter
set and installs it through setParameters. -/
def CameraHardware.initDefaultParameters (s : CameraHardware) : CameraHardware :=
  (s.setParameters defaultRequestedParameters).2

/-- The CameraHardware constructor: null heaps, buffer and thread, the
stopped flag set, null callbacks, then initDefaultParameters.  The C++
leaves mMsgEnabled uninitialized and mParameters default-constructed by
the external container, so both arrive as arbitrary arguments. -/
def CameraHardware.ctor (garbageMsgEnabled : Nat)
    (garbageParams : CameraParameters) : CameraHardware :=
  CameraHardware.initDefaultParameters
    { mParameters := garbageParams
      mHeap := false
      mBuffer := false
      mPreviewFrameSize := 0
      previewStopped := true
      mMsgEnabled := garbageMsgEnabled
      mNotifyFn := false
      mDataFn := false
      mTimestampFn := false
      mPreviewThread := false }

/-- CameraHardware::createInstance: the factory over the weak singleton
back-reference.  Its state is the live session (if any): while one is
alive, promote succeeds and the same handle is returned; otherwise a
fresh CameraHardware is constructed and becomes the singleton. -/
def createInstance (singleton : Option CameraHardware)
    (garbageMsgEnabled : Nat) (garbageParams : CameraParameters) :
    CameraHardware × Option CameraHardware :=
  match singleton with
  | some hardware => (hardware, some hardware)
  | none =>
      let hardware := CameraHardware.ctor garbageMsgEnabled garbageParams
      (hardware, some hardware)

/-! Concrete session states used to instantiate the theorems. -/

/-- An idle session: no heap, no preview thread, stopped flag set, no
callbacks, empty message mask, default parameters. -/
def exIdle : CameraHardware :=
  { mParameters := defaultRequestedParameters
    mHeap := false
    mBuffer := false
    mPreviewFrameSize := 0
    previewStopped := true
    mMsgEnabled := 0
    mNotifyFn := false
    mDataFn := false
    mTimestampFn := false
    mPreviewThread := false }

/-- A previewing session ready for capture: heap and thread live,
shutter and compressed-image kinds enabled, all callbacks registered. -/
def exCap : CameraHardware :=
  { mParameters := defaultRequestedParameters
    mHeap := true
    mBuffer := true
    mPreviewFrameSize := 614400
    previewStopped := false
    mMsgEnabled := CAMERA_MSG_SHUTTER ||| CAMERA_MSG_COMPRESSED_IMAGE
    mNotifyFn := true
    mDataFn := true
    mTimestampFn := true
    mPreviewThread := true }

/-- A session mid-teardown: stopped flag already set while the thread
handle still exists. -/
def exStopping : CameraHardware :=
  { exCap with previewStopped := true }

/-- An idle session with only the focus kind enabled and a notify
callback registered. -/
def exFocus : CameraHardware :=
  { exIdle with
      mMsgEnabled := CAMERA_MSG_FOCUS
      mNotifyFn := true
      mPreviewThread := false }

/-- A previewing session with the preview-frame kind enabled but no
data callback registered: the state on which dispatch faults. -/
def previewFaultState : CameraHardware :=
  { exIdle with
      mHeap := true
      mBuffer := true
      previewStopped := false
      mMsgEnabled := CAMERA_MSG_PREVIEW_FRAME
      mPreviewThread := true }

/-- A parameter request with an unsupported preview format. -/
def badFormatParams : CameraParameters :=
  { defaultRequestedParameters with previewFormat := "rgb565" }

/-- A parameter request with supported formats but a custom preview
geometry and frame rate. -/
def customParams : CameraParameters :=
  { defaultRequestedParameters with
      previewWidth := 1024
      previewHeight := 768
      previewFrameRate := 30 }

/-- C1: no preview-frame dispatch after stopPreview returns.  For every
session state, once stopPreview returns the stopped flag is set and the
preview-thread handle has been cleared, so a preview-loop iteration on
the post-state emits nothing at all; moreover any iteration that
observes the stopped flag emits nothing, and when a preview thread
existed, the trace stopPreview emits before returning ends with the
thread join (join semantics), after the device teardown. -/
theorem stopPreview_no_dispatch_after_return (s : CameraHardware) :
    s.stopPreview.1.previewStopped = true
    ∧ s.stopPreview.1.mPreviewThread = false
    ∧ s.stopPreview.1.previewThread = []
    ∧ (s.previewStopped = true → s.previewThread = [])
    ∧ (s.mPreviewThread = true →
        s.stopPreview.2 = [Event.devUninit, Event.devStopStreaming,
          Event.devClose, Event.joinPreviewThread]) := by
  cases h : s.mPreviewThread <;>
    simp [CameraHardware.stopPreview, CameraHardware.previewThread, h]

/-- C1 witness: the guarantees instantiated on a session mid-teardown. -/
theorem stopPreview_no_dispatch_after_return_witness :
    exStopping.stopPreview.1.previewThread = []
    ∧ exStopping.previewThread = []
    ∧ exStopping.stopPreview.2 = [Event.devUninit, Event.devStopStreaming,
        Event.devClose, Event.joinPreviewThread] :=
  ⟨(stopPreview_no_dispatch_after_return exStopping).2.2.1,
   (stopPreview_no_dispatch_after_return exStopping).2.2.2.1 rfl,
   (stopPreview_no_dispatch_after_return exStopping).2.2.2.2 rfl⟩

/-- C2: with exactly the shutter and compressed-image kinds enabled and
the callbacks registered, takePicture returns NO_ERROR, leaves the
session idle (preview thread cleared) regardless of whether preview was
running, and its trace contains exactly one shutter notify followed by
exactly one compressed-image data dispatch, with zero preview-frame
dispatches. -/
theorem takePicture_shutter_then_jpeg (s : CameraHardware)
    (hmask : s.mMsgEnabled = CAMERA_MSG_SHUTTER ||| CAMERA_MSG_COMPRESSED_IMAGE)
    (hnotify : s.mNotifyFn = true) (hdata : s.mDataFn = true) :
    s.takePicture.1 = status_t.noError
    ∧ s.takePicture.2.1.mPreviewThread = false
    ∧ s.takePicture.2.2.filter isDispatch
        = [Event.notifyCall CAMERA_MSG_SHUTTER 0 0,
           Event.dataCall CAMERA_MSG_COMPRESSED_IMAGE]
    ∧ s.takePicture.2.2.filter isPreviewFrameDispatch = [] := by
  cases h : s.mPreviewThread <;>
    simp [CameraHardware.takePicture, CameraHardware.stopPreview,
      CameraHardware.pictureThread, h, hmask, hnotify, hdata,
      isDispatch, isPreviewFrameDispatch, CAMERA_MSG_SHUTTER,
      CAMERA_MSG_COMPRESSED_IMAGE, CAMERA_MSG_PREVIEW_FRAME]

/-- C2 witness: the capture guarantees on a previewing session with
shutter and compressed-image enabled and callbacks registered. -/
theorem takePicture_shutter_then_jpeg_witness :
    exCap.takePicture.1 = status_t.noError
    ∧ exCap.takePicture.2.1.mPreviewThread = false
    ∧ exCap.takePicture.2.2.filter isDispatch
        = [Event.notifyCall CAMERA_MSG_SHUTTER 0 0,
           Event.dataCall CAMERA_MSG_COMPRESSED_IMAGE]
    ∧ exCap.takePicture.2.2.filter isPreviewFrameDispatch = [] :=
  takePicture_shutter_then_jpeg exCap rfl rfl rfl

/-- C3: startPreview on a session whose preview thread already exists
returns INVALID_OPERATION, leaves the whole state (heap, buffer, thread
handle, stopped flag, everything) exactly as it was, and performs no
device call. -/
theorem startPreview_already_running (s : CameraHardware)
    (h : s.mPreviewThread = true) :
    s.startPreview = (status_t.invalidOperation, s, []) := by
  simp [CameraHardware.startPreview, h]

/-- C3 witness: the second startPreview on a previewing session. -/
theorem startPreview_already_running_witness :
    exCap.startPreview = (status_t.invalidOperation, exCap, []) :=
  startPreview_already_running exCap rfl

/-- C4: setParameters with a preview format other than "yuv422sp" or a
picture format other than "jpeg" returns -1 and leaves the session, and
hence getParameters, completely unchanged. -/
theorem setParameters_invalid_format (s : CameraHardware)
    (p : CameraParameters)
    (h : p.previewFormat ≠ "yuv422sp" ∨ p.pictureFormat ≠ "jpeg") :
    (s.setParameters p).1 = status_t.minusOne
    ∧ (s.setParameters p).2 = s
    ∧ (s.setParameters p).2.getParameters = s.getParameters := by
  rcases h with h | h
  · simp [CameraHardware.setParameters, h]
  · by_cases h2 : p.previewFormat = "yuv422sp" <;>
      simp [CameraHardware.setParameters, h, h2]

/-- C4 witness: an rgb565 preview-format request is rejected without
touching the stored parameters. -/
theorem setParameters_invalid_format_witness :
    (exIdle.setParameters badFormatParams).1 = status_t.minusOne
    ∧ (exIdle.setParameters badFormatParams).2 = exIdle
    ∧ (exIdle.setParameters badFormatParams).2.getParameters
        = exIdle.getParameters :=
  setParameters_invalid_format exIdle badFormatParams (Or.inl (by decide))

/-- C5: setParameters with preview format "yuv422sp" and picture format
"jpeg" succeeds and stores the requested parameters with the preview
size unconditionally overwritten back to 640x480; every other field is
stored as requested. -/
theorem setParameters_valid_normalizes_size (s : CameraHardware)
    (p : CameraParameters)
    (h1 : p.previewFormat = "yuv422sp") (h2 : p.pictureFormat = "jpeg") :
    (s.setParameters p).1 = status_t.noError
    ∧ (s.setParameters p).2.mParameters
        = { p with previewWidth := 640, previewHeight := 480 } := by
  simp [CameraHardware.setParameters, h1, h2]

/-- C5 witness: a 1024x768 at 30 fps request succeeds, the geometry is
forced back to 640x480, the frame rate is kept. -/
theorem setParameters_valid_normalizes_size_witness :
    (exIdle.setParameters customParams).1 = status_t.noError
    ∧ (exIdle.setParameters customParams).2.mParameters
        = { customParams with previewWidth := 640, previewHeight := 480 } :=
  setParameters_valid_normalizes_size exIdle customParams rfl rfl

/-- C6 counterexample: on a session with no data callback registered
but the preview-frame kind enabled, a preview-loop iteration is not a
no-op: it invokes the null mDataFn slot (the code has no null check),
recorded as the fault event.  This refutes the claim that a dispatch
whose callback slot is null is always a no-op and never a fault even
when the kind is enabled. -/
theorem previewThread_null_data_faults :
    previewFaultState.mDataFn = false
    ∧ previewFaultState.previewThread = [Event.devGrabPreview, Event.fault]
    ∧ Event.fault ∈ previewFaultState.previewThread := by
  refine ⟨rfl, rfl, ?_⟩
  decide

/-- C6 amended: a dispatch whose message kind is disabled in the
bitmask never touches any callback slot (no-op); but a dispatch of an
enabled kind whose slot is null is a faulting call through the null
pointer, not a no-op: previewThread and pictureThread invoke their
slots without a null check. -/
theorem dispatch_gated_by_mask_faults_on_null_slot (s : CameraHardware) :
    (s.mMsgEnabled &&& CAMERA_MSG_PREVIEW_FRAME = 0 →
        s.previewThread.filter isCallbackEvent = [])
    ∧ (s.mMsgEnabled &&& CAMERA_MSG_PREVIEW_FRAME ≠ 0 → s.mDataFn = false →
        s.previewStopped = false → Event.fault ∈ s.previewThread)
    ∧ (s.mMsgEnabled &&& CAMERA_MSG_SHUTTER = 0 →
        s.mMsgEnabled &&& CAMERA_MSG_COMPRESSED_IMAGE = 0 →
        s.pictureThread.2.filter isCallbackEvent = [])
    ∧ (s.mMsgEnabled &&& CAMERA_MSG_COMPRESSED_IMAGE ≠ 0 → s.mDataFn = false →
        Event.fault ∈ s.pictureThread.2) := by
  refine ⟨?_, ?_, ?_, ?_⟩
  · intro h
    cases hstop : s.previewStopped <;>
      simp [CameraHardware.previewThread, hstop, h, isCallbackEvent]
  · intro h hd hstop
    simp [CameraHardware.previewThread, hstop, h, hd]
  · intro h1 h2
    simp [CameraHardware.pictureThread, h1, h2, isCallbackEvent]
  · intro h hd
    by_cases hsh : s.mMsgEnabled &&& CAMERA_MSG_SHUTTER = 0 <;>
      cases hn : s.mNotifyFn <;>
        simp [CameraHardware.pictureThread, h, hd, hsh, hn]

/-- C6 amended witness: an empty mask yields no callback traffic, and
the fault state from the counterexample indeed faults. -/
theorem dispatch_gated_by_mask_faults_on_null_slot_witness :
    exIdle.previewThread.filter isCallbackEvent = []
    ∧ Event.fault ∈ previewFaultState.previewThread
    ∧ exIdle.pictureThread.2.filter isCallbackEvent = [] :=
  ⟨(dispatch_gated_by_mask_faults_on_null_slot exIdle).1 (by decide),
   (dispatch_gated_by_mask_faults_on_null_slot previewFaultState).2.1
     (by decide) rfl rfl,
   (dispatch_gated_by_mask_faults_on_null_slot exIdle).2.2.1
     (by decide) (by decide)⟩

/-- C7: stopPreview on an idle session (no preview thread, stopped flag
already set) is a safe no-op: it returns the state unchanged with no
device-teardown call and no join (so it cannot block); and stopPreview
is idempotent from any state: a second stopPreview right after a first
changes nothing and emits nothing. -/
theorem stopPreview_idle_noop_idempotent (s t : CameraHardware)
    (h1 : s.mPreviewThread = false) (h2 : s.previewStopped = true) :
    s.stopPreview = (s, [])
    ∧ t.stopPreview.1.stopPreview = (t.stopPreview.1, []) := by
  constructor
  · simp [CameraHardware.stopPreview, h1]
    cases s
    simp_all
  · cases h : t.mPreviewThread <;>
      simp [CameraHardware.stopPreview, h]

/-- C7 witness: the no-op on the idle session and idempotence after
stopping a live preview. -/
theorem stopPreview_idle_noop_idempotent_witness :
    exIdle.stopPreview = (exIdle, [])
    ∧ exCap.stopPreview.1.stopPreview = (exCap.stopPreview.1, []) :=
  ⟨(stopPreview_idle_noop_idempotent exIdle exCap rfl rfl).1,
   (stopPreview_idle_noop_idempotent exIdle exCap rfl rfl).2⟩

/-- C8: while a live handle exists, createInstance returns that same
handle and leaves the singleton unchanged; when none is live, a fresh
CameraHardware is constructed (for any uninitialized mMsgEnabled value
and any default-constructed parameter container) and its stored
parameters are exactly the defaults: 640x480 preview and picture size,
15 fps, "yuv422sp" preview format, "jpeg" picture format. -/
theorem createInstance_singleton_and_defaults (h : CameraHardware)
    (g : Nat) (gp : CameraParameters) :
    createInstance (some h) g gp = (h, some h)
    ∧ (createInstance none g gp).1 = CameraHardware.ctor g gp
    ∧ (createInstance none g gp).2 = some (CameraHardware.ctor g gp)
    ∧ (CameraHardware.ctor g gp).mParameters = defaultRequestedParameters :=
  ⟨rfl, rfl, rfl, rfl⟩

/-- C9: autoFocus returns NO_ERROR whenever the external thread-spawn
primitive succeeds, and the focus task notifies focus success exactly
when CAMERA_MSG_FOCUS is enabled (given a registered notify callback);
cancelAutoFocus and cancelPicture are unconditional NO_ERROR;
startRecording unconditionally reports UNKNOWN_ERROR (unsupported). -/
theorem focus_cancel_recording_stubs (s : CameraHardware)
    (threadCreated : Bool) (h : threadCreated = true) :
    s.autoFocus threadCreated = status_t.noError
    ∧ s.cancelAutoFocus = status_t.noError
    ∧ s.cancelPicture = status_t.noError
    ∧ s.startRecording = status_t.unknownError
    ∧ (s.mMsgEnabled &&& CAMERA_MSG_FOCUS ≠ 0 → s.mNotifyFn = true →
        s.autoFocusThread = [Event.notifyCall CAMERA_MSG_FOCUS 1 0])
    ∧ (s.mMsgEnabled &&& CAMERA_MSG_FOCUS = 0 → s.autoFocusThread = []) := by
  subst h
  refine ⟨rfl, rfl, rfl, rfl, ?_, ?_⟩
  · intro hf hn
    simp [CameraHardware.autoFocusThread, hf, hn]
  · intro hf
    simp [CameraHardware.autoFocusThread, hf]

/-- C9 witness: the stub statuses and the focus notification on a
session with focus enabled and a notify callback, plus the silent case
on an empty mask. -/
theorem focus_cancel_recording_stubs_witness :
    exFocus.autoFocus true = status_t.noError
    ∧ exFocus.cancelAutoFocus = status_t.noError
    ∧ exFocus.cancelPicture = status_t.noError
    ∧ exFocus.startRecording = status_t.unknownError
    ∧ exFocus.autoFocusThread = [Event.notifyCall CAMERA_MSG_FOCUS 1 0]
    ∧ exIdle.autoFocusThread = [] :=
  ⟨(focus_cancel_recording_stubs exFocus true rfl).1,
   (focus_cancel_recording_stubs exFocus true rfl).2.1,
   (focus_cancel_recording_stubs exFocus true rfl).2.2.1,
   (focus_cancel_recording_stubs exFocus true rfl).2.2.2.1,
   (focus_cancel_recording_stubs exFocus true rfl).2.2.2.2.1
     (by decide) rfl,
   (focus_cancel_recording_stubs exIdle true rfl).2.2.2.2.2 (by decide)⟩

/-- C10 counterexample: takePicture is a public operation other than
startPreview and stopPreview, yet it changes previewEnabled from true
to false (it performs a full stopPreview internally), refuting the
claim that every other public operation leaves previewEnabled
unchanged. -/
theorem takePicture_changes_previewEnabled :
    exCap.previewEnabled = true
    ∧ exCap.takePicture.2.1.previewEnabled = false :=
  ⟨rfl, rfl⟩

/-- C10 amended: previewEnabled reports exactly whether the preview
thread handle exists; it is true after a successful startPreview and
false after stopPreview completes, and every state-mutating public
operation other than startPreview, stopPreview and takePicture (which
performs a stopPreview internally) leaves it unchanged. -/
theorem previewEnabled_tracks_thread_handle (s : CameraHardware)
    (n d t : Bool) (m : Nat) (p : CameraParameters) :
    s.previewEnabled = s.mPreviewThread
    ∧ (s.startPreview.1 = status_t.noError →
        s.startPreview.2.1.previewEnabled = true)
    ∧ s.stopPreview.1.previewEnabled = false
    ∧ s.takePicture.2.1.previewEnabled = false
    ∧ (s.setCallbacks n d t).previewEnabled = s.previewEnabled
    ∧ (s.enableMsgType m).previewEnabled = s.previewEnabled
    ∧ (s.disableMsgType m).previewEnabled = s.previewEnabled
    ∧ (s.setParameters p).2.previewEnabled = s.previewEnabled := by
  refine ⟨rfl, ?_, ?_, ?_, rfl, rfl, rfl, ?_⟩
  · intro h
    cases hp : s.mPreviewThread <;>
      simp [CameraHardware.startPreview, CameraHardware.previewEnabled, hp] at h ⊢
  · cases hp : s.mPreviewThread <;>
      simp [CameraHardware.stopPreview, CameraHardware.previewEnabled, hp]
  · cases hp : s.mPreviewThread <;>
      simp [CameraHardware.takePicture, CameraHardware.stopPreview,
        CameraHardware.previewEnabled, hp]
  · simp only [CameraHardware.setParameters]
    split <;> simp [CameraHardware.previewEnabled]
    split <;> simp [CameraHardware.previewEnabled]

/-- C10 amended witness: a successful startPreview from idle turns
previewEnabled on, stopPreview turns it off, and setCallbacks leaves it
alone. -/
theorem previewEnabled_tracks_thread_handle_witness :
    exIdle.startPreview.2.1.previewEnabled = true
    ∧ exIdle.stopPreview.1.previewEnabled = false
    ∧ (exIdle.setCallbacks true true true).previewEnabled
        = exIdle.previewEnabled :=
  ⟨(previewEnabled_tracks_thread_handle exIdle true true true 0
      defaultRequestedParameters).2.1 rfl,
   (previewEnabled_tracks_thread_handle exIdle true true true 0
      defaultRequestedParameters).2.2.1,
   (previewEnabled_tracks_thread_handle exIdle true true true 0
      defaultRequestedParameters).2.2.2.2.1⟩

end CameraHAL
